import Mathlib

/-
Verification of the OwlPlatform binary_state_solver repository.

The repository holds two variants of the same solver:
  * src/src/binary_state_solver.cpp — the "threshold" variant: a fixed
    object_to_solution table (sensor.door -> closed, sensor.water -> wet) and
    an optional numeric transition-threshold argument;
  * src/unnamed/part_000 — the "config-file" variant: the
    object_to_solution table is read from a config file and a confirmed
    state change fans out to every configured class whose name occurs,
    surrounded by dots, inside the entity URI.

Both variants keep three maps: tx_to_uri (transmitter key -> entity URI),
tx_to_solution (threshold variant only: transmitter key -> solution name)
and switch_state (entity URI -> last recorded boolean state).  The shallow
embedding below models std::map as an association list with unique keys,
u16string values as String, byte vectors as List Nat, and grail_time as Int.
-/

set_option autoImplicit false

namespace BinaryStateSolver

/-- world_model::Attribute: a named attribute with creation and expiration
    timestamps and a byte payload. -/
structure Attr where
  name : String
  creation_date : Int
  expiration_date : Int
  data : List Nat
deriving DecidableEq

/-- Association-list lookup, modelling std::map::find. -/
def alookup {α : Type} : List (String × α) → String → Option α
  | [], _ => none
  | (k', v) :: t, k => if k' = k then some v else alookup t k

/-- Association-list insert-or-assign, modelling std::map::operator[] assignment. -/
def ainsert {α : Type} : List (String × α) → String → α → List (String × α)
  | [], k, v => [(k, v)]
  | (k', v') :: t, k, v => if k' = k then (k, v) :: t else (k', v') :: ainsert t k v

/-- Association-list erase, modelling std::map::erase. -/
def aerase {α : Type} : List (String × α) → String → List (String × α)
  | [], _ => []
  | (k', v') :: t, k => if k' = k then t else (k', v') :: aerase t k

/-- src/src lines 168-169 (identically part_000 lines 208-209): the
    "less than operator for two world model attributes" handed to
    std::max_element.  Note the first disjunct: a record with a nonzero
    expiration date makes the comparator true regardless of the second
    argument. -/
def attr_comp (a b : Attr) : Bool :=
  a.expiration_date != 0 || decide (a.creation_date < b.creation_date)

/-- std::max_element over a nonempty range, operationally: the running best
    is replaced by the current element exactly when comp best cur holds. -/
def maxElem (comp : Attr → Attr → Bool) (first : Attr) (rest : List Attr) : Attr :=
  rest.foldl (fun best cur => if comp best cur then cur else best) first

/-- grail_types::transmitter: one byte of physical layer and a 128-bit id
    split into upper and lower 64-bit halves (fields phy, id.upper, id.lower). -/
structure Transmitter where
  phy : Nat
  idUpper : Nat
  idLower : Nat
deriving DecidableEq

/-- Big-endian byte-list to number. -/
def beBytes (bs : List Nat) : Nat :=
  bs.foldl (fun acc b => acc * 256 + b % 256) 0

/-- Models grail_types::readTransmitter from the owl support library (an
    external collaborator; the source comment at src/src lines 244-245 states
    the layout: "Transmitters are stored as one byte of physical layer and 16
    bytes of ID").  Byte 0 is the physical layer, bytes 1-8 the upper half of
    the id and bytes 9-16 the lower half. -/
def readTransmitter (data : List Nat) : Transmitter :=
  { phy := data.headD 0
    idUpper := beBytes ((data.drop 1).take 8)
    idLower := beBytes ((data.drop 9).take 8) }

/-- src/src lines 246-247 (identically part_000 line 294): the binding-table
    key is to_string(tx.phy) + "." + to_string(tx.id.lower); the upper half of
    the 128-bit id does not reach the key. -/
def mkTxKey (t : Transmitter) : String :=
  toString t.phy ++ "." ++ toString t.idLower

/-- src/src lines 122-124: the fixed object_to_solution table of the
    threshold variant. -/
def object_to_solution_A : List (String × String) :=
  [("sensor.door", "closed"), ("sensor.water", "wet")]

/-- SolverWorldModel::AttrUpdate as built at src/src lines 200-201: solution
    name, generation timestamp, target URI and the one-byte payload. -/
structure Pub where
  name : String
  time : Int
  target : String
  data : List Nat
deriving DecidableEq

/-- The exact message string matched at src/src line 212 to decide
    retryability of a failed send. -/
def transientMsg : String :=
  "Error sending data over socket: Resource temporarily unavailable"

/-- Outcome of one swm.sendData attempt, supplied by the environment. -/
inductive SendOutcome
  | ok
  | err (msg : String)
deriving DecidableEq

/-- C++ exceptions reaching the pass-level handler: std::runtime_error with
    its message, or the std::out_of_range raised by std::vector::at (which
    derives from std::logic_error, not std::runtime_error). -/
inductive CppError
  | runtimeError (msg : String)
  | outOfRange
deriving DecidableEq

/-- src/src lines 204-221 (identically part_000 lines 244-261): the retry
    loop around swm.sendData.  The loop resends the same AttrUpdate object —
    payload and timestamp included — and retries exactly when the caught
    runtime_error message equals transientMsg; any other message is rethrown.
    The environment supplies the successive attempt outcomes as a list; an
    exhausted list means every further attempt succeeds.  Returns the payloads
    of the attempted sends, the unconsumed outcomes, and the rethrown message
    if any. -/
def retryLoop (p : Pub) : List SendOutcome → List Pub × List SendOutcome × Option String
  | [] => ([p], [], none)
  | SendOutcome.ok :: rest => ([p], rest, none)
  | SendOutcome.err m :: rest =>
      if m = transientMsg then
        let r := retryLoop p rest
        (p :: r.1, r.2.1, r.2.2)
      else ([p], rest, some m)

/-- The mutable maps of the threshold variant: tx_to_uri and tx_to_solution
    (src/src lines 127-128) and switch_state (line 141). -/
structure SolverState where
  tx_to_uri : List (String × String)
  tx_to_solution : List (String × String)
  switch_state : List (String × Bool)
deriving DecidableEq

/-- One record of a WorldState delivered by the reading stream: the pair
    (I.first, I.second) iterated at src/src line 190. -/
structure ReadingRec where
  txid : String
  attrs : List Attr
deriving DecidableEq

/-- One record of a WorldState delivered by the identity stream, iterated at
    src/src line 237. -/
structure IdentityRec where
  uri : String
  attrs : List Attr
deriving DecidableEq

/-- src/src line 193: tx_to_solution[I.first] uses std::map::operator[],
    which default-inserts an empty string when the key is absent. -/
def touchSolution (s : SolverState) (txid : String) : SolverState :=
  match alookup s.tx_to_solution txid with
  | some _ => s
  | none => { s with tx_to_solution := ainsert s.tx_to_solution txid "" }

/-- Result of processing one reading record: the state after the record, the
    payloads of all attempted sends, the payloads actually delivered, the
    unconsumed send outcomes, and the escaping exception if any. -/
structure StepResult where
  state : SolverState
  attempts : List Pub
  sent : List Pub
  rest : List SendOutcome
  err : Option CppError
deriving DecidableEq

/-- src/src lines 198-226: switch_state[uri] is assigned before the send; the
    AttrUpdate normalizes the value to a single byte (1 for true, 0 for
    false) and goes through the retry loop; a non-transient error is rethrown
    after the state update. -/
def publishStep (now : Int) (s : SolverState) (uri soln_name : String)
    (switch_on : Bool) (outs : List SendOutcome) : StepResult :=
  let s2 := { s with switch_state := ainsert s.switch_state uri switch_on }
  let p : Pub := ⟨soln_name, now, uri, [if switch_on then 1 else 0]⟩
  let r := retryLoop p outs
  { state := s2
    attempts := r.1
    sent := match r.2.2 with | none => [p] | some _ => []
    rest := r.2.1
    err := Option.map CppError.runtimeError r.2.2 }

/-- src/src lines 190-228: one reading record.  A transmitter absent from
    tx_to_uri is skipped.  For a bound transmitter, tx_to_solution[I.first]
    is read (line 193, with operator[] default-insertion), then the boolean
    state is I.second[0].data.at(0) — any nonzero first byte of the first
    attribute's data is true, and at(0) raises std::out_of_range when the
    data is empty.  The update fires iff the entity is new to switch_state or
    its recorded value differs.  (The source indexes I.second[0] without a
    bounds check; a record with no attributes at all is undefined behaviour
    in C++ and no claim depends on it — modelled as a skip.) -/
def processReading (now : Int) (s : SolverState) (r : ReadingRec)
    (outs : List SendOutcome) : StepResult :=
  match alookup s.tx_to_uri r.txid with
  | none => ⟨s, [], [], outs, none⟩
  | some uri =>
    let soln_name := (alookup s.tx_to_solution r.txid).getD ""
    let s1 := touchSolution s r.txid
    match r.attrs with
    | [] => ⟨s1, [], [], outs, none⟩
    | a :: _ =>
      match a.data with
      | [] => ⟨s1, [], [], outs, some CppError.outOfRange⟩
      | b :: _ =>
        let switch_on : Bool := b != 0
        match alookup s1.switch_state uri with
        | some v =>
          if v = switch_on then ⟨s1, [], [], outs, none⟩
          else publishStep now s1 uri soln_name switch_on outs
        | none => publishStep now s1 uri soln_name switch_on outs

/-- Result of draining the binary_response stream once. -/
structure PassResult where
  state : SolverState
  sent : List Pub
  err : Option CppError
deriving DecidableEq

/-- src/src lines 186-230: the reading-stream drain.  The first escaping
    exception aborts the drain; records after it are not processed. -/
def runReadingPass (now : Int) (s : SolverState) (recs : List ReadingRec)
    (outs : List SendOutcome) : PassResult :=
  match recs with
  | [] => ⟨s, [], none⟩
  | r :: rest =>
    let st := processReading now s r outs
    match st.err with
    | some e => ⟨st.state, st.sent, some e⟩
    | none =>
      let pr := runReadingPass now st.state rest st.rest
      ⟨pr.state, st.sent ++ pr.sent, pr.err⟩

/-- src/src lines 237-264: one identity record.  An empty attribute list is
    only logged.  Otherwise the newest attribute is chosen with
    std::max_element under attr_comp, the transmitter key is derived, and
    lines 248-253 erase both bindings when the newest record is expired while
    lines 254-263 install/overwrite them otherwise (the solution name is
    object_to_solution[newest.name], defaulting to the empty string for an
    unknown attribute name). -/
def processIdentity (s : SolverState) (r : IdentityRec) : SolverState :=
  match r.attrs with
  | [] => s
  | a :: rest =>
    let newest := maxElem attr_comp a rest
    let tx_str := mkTxKey (readTransmitter newest.data)
    if newest.expiration_date != 0 then
      { s with tx_to_uri := aerase s.tx_to_uri tx_str
               tx_to_solution := aerase s.tx_to_solution tx_str }
    else
      { s with tx_to_uri := ainsert s.tx_to_uri tx_str r.uri
               tx_to_solution := ainsert s.tx_to_solution tx_str
                 ((alookup object_to_solution_A newest.name).getD "") }

/-- How the catch at src/src lines 268-270 disposes of a pass's escaping
    exception: no exception completes the pass; a std::runtime_error is
    caught and logged and the outer loop continues; std::out_of_range is not
    a std::runtime_error, escapes the handler, and terminates the process. -/
inductive PassOutcome
  | completed
  | caughtLogged (msg : String)
  | terminated
deriving DecidableEq

/-- Dispose of a pass's escaping exception per the handler at lines 268-270. -/
def passOutcome : Option CppError → PassOutcome
  | none => PassOutcome.completed
  | some (CppError.runtimeError m) => PassOutcome.caughtLogged m
  | some CppError.outOfRange => PassOutcome.terminated

/-- src/src line 166: the outer processing loop.  Each iteration drains the
    reading stream; a logged runtime_error lets the loop continue with the
    next pass, while an uncaught exception ends the run.  Returns the final
    state and every delivered publish. -/
def runLoop (now : Int) (s : SolverState) :
    List (List ReadingRec × List SendOutcome) → SolverState × List Pub
  | [] => (s, [])
  | (recs, outs) :: more =>
    let pr := runReadingPass now s recs outs
    match passOutcome pr.err with
    | PassOutcome.terminated => (pr.state, pr.sent)
    | _ =>
      let rl := runLoop now pr.state more
      (rl.1, pr.sent ++ rl.2)

/-- src/src lines 110-114 parse the optional transition_threshold argument
    (default 1) and announce it; the processing loop below them never reads
    the variable again, so it is passed here and ignored exactly as in the
    source. -/
def processBinaryData (transition_threshold : Nat) (now : Int) (s : SolverState)
    (recs : List ReadingRec) (outs : List SendOutcome) : PassResult :=
  runReadingPass now s recs outs

/-- Does sub occur starting at the head of l? -/
def subAt : List Char → List Char → Bool
  | [], _ => true
  | _ :: _, [] => false
  | a :: as, b :: bs => a == b && subAt as bs

/-- Does sub occur contiguously anywhere inside l?  Models
    std::u16string::find(sub) != npos. -/
def containsSub (sub : List Char) : List Char → Bool
  | [] => subAt sub []
  | b :: bs => subAt sub (b :: bs) || containsSub sub bs

/-- part_000 line 239: a configured class c matches an entity URI exactly when
    uri.find("." + c + ".") != npos, i.e. when the class name occurs inside
    the URI surrounded by dots on both sides. -/
def classMatches (c uri : String) : Bool :=
  containsSub ("." ++ c ++ ".").toList uri.toList

/-- Modelled from the spec (section 4.1, the sentence behind claim C5): the
    resolver "accepts a match if the class name appears as a dot-delimited
    segment of EntityURI (i.e., surrounded by . on both sides, or at a
    boundary)".  Wrapping the URI in dots makes a boundary occurrence an
    interior one.  Stated only for comparison with classMatches. -/
def classMatchesSegSpec (c uri : String) : Bool :=
  containsSub ("." ++ c ++ ".").toList ("." ++ uri ++ ".").toList

/-- part_000 lines 238-268: on a confirmed state change the config-file
    variant walks every entry of object_to_solution and publishes the
    configured output attribute for each class whose name, wrapped in dots,
    occurs in the URI; each match publishes independently. -/
def object_to_solution_pubs (o2s : List (String × String)) (now : Int)
    (uri : String) (switch_on : Bool) : List Pub :=
  o2s.filterMap (fun q =>
    if classMatches q.1 uri then
      some ⟨q.2, now, uri, [if switch_on then 1 else 0]⟩
    else none)

/-- The mutable maps of the config-file variant: tx_to_uri (part_000 line
    121) and switch_state (line 163); there is no tx_to_solution map. -/
structure CfgState where
  tx_to_uri : List (String × String)
  switch_state : List (String × Bool)
deriving DecidableEq

/-- part_000 lines 230-271: one reading record of the config-file variant.
    Same guard and first-byte semantics as the threshold variant, but the
    publish fans out over every matching configured class.  Sends are taken
    as successful here; the retry/rethrow machinery is identical to the
    threshold variant's (part_000 lines 244-261) and is modelled there.
    (The empty-data at(0) exception path is likewise shared; this function is
    only evaluated on nonempty data.) -/
def processReadingCfg (o2s : List (String × String)) (now : Int) (s : CfgState)
    (r : ReadingRec) : CfgState × List Pub :=
  match alookup s.tx_to_uri r.txid with
  | none => (s, [])
  | some uri =>
    match r.attrs with
    | [] => (s, [])
    | a :: _ =>
      match a.data with
      | [] => (s, [])
      | b :: _ =>
        let switch_on : Bool := b != 0
        match alookup s.switch_state uri with
        | some v =>
          if v = switch_on then (s, [])
          else ({ s with switch_state := ainsert s.switch_state uri switch_on },
                object_to_solution_pubs o2s now uri switch_on)
        | none => ({ s with switch_state := ainsert s.switch_state uri switch_on },
                   object_to_solution_pubs o2s now uri switch_on)

/-- part_000 lines 278-298: one identity record of the config-file variant.
    The newest attribute is chosen exactly as in the threshold variant, but
    the expired branch (lines 284-287) is an empty block holding only the
    comment "TODO FIXME This attribute has been expired so stop updating the
    status of this ID in the world model": execution falls through and lines
    292-295 install/overwrite the binding unconditionally. -/
def processIdentityCfg (s : CfgState) (r : IdentityRec) : CfgState :=
  match r.attrs with
  | [] => s
  | a :: rest =>
    let newest := maxElem attr_comp a rest
    let tx_str := mkTxKey (readTransmitter newest.data)
    { s with tx_to_uri := ainsert s.tx_to_uri tx_str r.uri }

/-- The client connection and the two stream-response handles declared at
    src/src lines 160-163 (identically part_000 lines 200-203): sr and
    binary_response are the handles the processing loop drains (lines 186 and
    232); nextId numbers fresh streamRequest results. -/
structure ConnState where
  connected : Bool
  nextId : Nat
  sr : Nat
  binary_response : Nat
deriving DecidableEq

/-- src/src lines 171-181 (identically part_000 lines 211-221): one execution
    of the reconnect loop body when the connection is down.  After the
    backoff sleep and a successful cwc.reconnect(), the block at lines
    177-179 re-sends both stream requests — but the declarations
    "StepResponse sr = ..." and "StepResponse binary_response = ..." inside
    the if-block introduce new block-scoped locals that shadow the outer
    handles and die at the closing brace.  The function returns the ids of
    the two re-issued streams (the inner locals) next to the connection
    state, whose outer sr and binary_response fields are left untouched. -/
def reconnectLoopBody (c : ConnState) : ConnState × Option (Nat × Nat) :=
  if c.connected then (c, none)
  else
    let c1 := { c with connected := true }
    let innerSr := c1.nextId
    let innerBinary := c1.nextId + 1
    ({ c1 with nextId := c1.nextId + 2 }, some (innerSr, innerBinary))

/-- src/src lines 186 and 232: the drains call hasNext/next on the outer
    binary_response and sr handles, so only records delivered on those
    streams are ever processed. -/
def drainedReadings (c : ConnState) (deliveries : List (Nat × ReadingRec)) :
    List ReadingRec :=
  (deliveries.filter (fun d => d.1 == c.binary_response)).map (fun d => d.2)

/-- The boolean values published for entity u, in order: a delivered payload
    [1] is true and [0] is false (publishStep produces no other payload). -/
def pubValsFor (u : String) (ps : List Pub) : List Bool :=
  ps.filterMap (fun p => if p.target = u then some (decide (p.data = [1])) else none)

/-- No two adjacent elements equal, with an optional predecessor constraining
    the head. -/
def noAdjEqFrom {α : Type} [DecidableEq α] (prev : Option α) : List α → Bool
  | [] => true
  | a :: t =>
    (match prev with
     | none => true
     | some p => decide (p ≠ a)) && noAdjEqFrom (some a) t

/-- No two adjacent elements of the list are equal. -/
def noAdjEq {α : Type} [DecidableEq α] (l : List α) : Bool :=
  noAdjEqFrom none l

/-! ## Helper lemmas -/

theorem alookup_ainsert_self {α : Type} (m : List (String × α)) (k : String) (v : α) :
    alookup (ainsert m k v) k = some v := by
  induction m with
  | nil => simp [ainsert, alookup]
  | cons h t ih =>
    obtain ⟨k', v'⟩ := h
    by_cases hk : k' = k
    · simp [ainsert, alookup, hk]
    · simp [ainsert, alookup, hk, ih]

theorem alookup_ainsert_ne {α : Type} (m : List (String × α)) (k k' : String) (v : α)
    (h : k ≠ k') : alookup (ainsert m k v) k' = alookup m k' := by
  induction m with
  | nil => simp [ainsert, alookup, h]
  | cons hd t ih =>
    obtain ⟨k₀, v₀⟩ := hd
    by_cases hk : k₀ = k
    · subst hk
      simp [ainsert, alookup, h]
    · simp only [ainsert, if_neg hk, alookup]
      by_cases hk' : k₀ = k'
      · simp [hk']
      · simp [hk', ih]

theorem touchSolution_switch_state (s : SolverState) (t : String) :
    (touchSolution s t).switch_state = s.switch_state := by
  unfold touchSolution
  split <;> rfl

theorem touchSolution_tx_to_uri (s : SolverState) (t : String) :
    (touchSolution s t).tx_to_uri = s.tx_to_uri := by
  unfold touchSolution
  split <;> rfl

theorem retryLoop_mem (p : Pub) (outs : List SendOutcome) :
    ∀ q ∈ (retryLoop p outs).1, q = p := by
  induction outs with
  | nil => simp [retryLoop]
  | cons o rest ih =>
    cases o with
    | ok => simp [retryLoop]
    | err m =>
      by_cases hm : m = transientMsg
      · simp only [retryLoop, if_pos hm]
        intro q hq
        rcases List.mem_cons.mp hq with h | h
        · exact h
        · exact ih q h
      · simp [retryLoop, hm]

theorem retryLoop_nil (p : Pub) : retryLoop p [] = ([p], [], none) := rfl

theorem retryLoop_transient_ok (p : Pub) (rest : List SendOutcome) :
    ∀ k : Nat, retryLoop p (List.replicate k (SendOutcome.err transientMsg)
        ++ SendOutcome.ok :: rest)
      = (List.replicate (k + 1) p, rest, none) := by
  intro k
  induction k with
  | zero => simp [retryLoop]
  | succ n ih => simp [List.replicate_succ, retryLoop, ih]

theorem retryLoop_transient_fatal (p : Pub) (m : String) (rest : List SendOutcome)
    (hm : m ≠ transientMsg) :
    ∀ k : Nat, retryLoop p (List.replicate k (SendOutcome.err transientMsg)
        ++ SendOutcome.err m :: rest)
      = (List.replicate (k + 1) p, rest, some m) := by
  intro k
  induction k with
  | zero => simp [retryLoop, hm]
  | succ n ih => simp [List.replicate_succ, retryLoop, ih]

theorem runReadingPass_err_cons (now : Int) (s : SolverState) (r : ReadingRec)
    (rest : List ReadingRec) (outs : List SendOutcome) (e : CppError)
    (h : (processReading now s r outs).err = some e) :
    runReadingPass now s (r :: rest) outs
      = ⟨(processReading now s r outs).state, (processReading now s r outs).sent, some e⟩ := by
  conv_lhs => unfold runReadingPass
  simp only [h]

theorem runLoop_continues (now : Int) (s : SolverState) (recs : List ReadingRec)
    (outs : List SendOutcome) (more : List (List ReadingRec × List SendOutcome))
    (m : String)
    (h : (runReadingPass now s recs outs).err = some (CppError.runtimeError m)) :
    runLoop now s ((recs, outs) :: more)
      = ((runLoop now (runReadingPass now s recs outs).state more).1,
         (runReadingPass now s recs outs).sent
           ++ (runLoop now (runReadingPass now s recs outs).state more).2) := by
  conv_lhs => unfold runLoop
  simp only [h, passOutcome]

/-- Reduction of processReading for a bound transmitter and nonempty data. -/
theorem processReading_bound (now : Int) (s : SolverState) (t u : String)
    (a : Attr) (rest : List Attr) (b : Nat) (bs : List Nat) (outs : List SendOutcome)
    (h1 : alookup s.tx_to_uri t = some u) (h2 : a.data = b :: bs) :
    processReading now s ⟨t, a :: rest⟩ outs
      = (match alookup (touchSolution s t).switch_state u with
         | some v =>
           if v = (b != 0 : Bool) then ⟨touchSolution s t, [], [], outs, none⟩
           else publishStep now (touchSolution s t) u
             ((alookup s.tx_to_solution t).getD "") (b != 0) outs
         | none => publishStep now (touchSolution s t) u
             ((alookup s.tx_to_solution t).getD "") (b != 0) outs) := by
  conv_lhs => unfold processReading
  simp only [h1, h2]

theorem publishStep_attempts (now : Int) (s : SolverState) (uri n : String)
    (sw : Bool) (outs : List SendOutcome) :
    (publishStep now s uri n sw outs).attempts
      = (retryLoop ⟨n, now, uri, [if sw then 1 else 0]⟩ outs).1 := rfl

theorem publishStep_switch_state (now : Int) (s : SolverState) (uri n : String)
    (sw : Bool) (outs : List SendOutcome) :
    (publishStep now s uri n sw outs).state.switch_state
      = ainsert s.switch_state uri sw := rfl

theorem publishStep_nil (now : Int) (s : SolverState) (uri n : String) (sw : Bool) :
    publishStep now s uri n sw []
      = ⟨{ s with switch_state := ainsert s.switch_state uri sw },
         [⟨n, now, uri, [if sw then 1 else 0]⟩], [⟨n, now, uri, [if sw then 1 else 0]⟩],
         [], none⟩ := rfl

theorem runReadingPass_ok_cons (now : Int) (s : SolverState) (r : ReadingRec)
    (rest : List ReadingRec) (outs : List SendOutcome)
    (h : (processReading now s r outs).err = none) :
    runReadingPass now s (r :: rest) outs
      = ⟨(runReadingPass now (processReading now s r outs).state rest
            (processReading now s r outs).rest).state,
         (processReading now s r outs).sent
           ++ (runReadingPass now (processReading now s r outs).state rest
                 (processReading now s r outs).rest).sent,
         (runReadingPass now (processReading now s r outs).state rest
            (processReading now s r outs).rest).err⟩ := by
  conv_lhs => unfold runReadingPass
  simp only [h]

/-- Outcome shapes of one reading step with all sends succeeding: either a
    skip (switch_state, sent and the outcome stream untouched), or a publish
    of the normalized bit for an entity whose recorded state was absent or
    different. -/
theorem processReading_nil_cases (now : Int) (s : SolverState) (r : ReadingRec) :
    ((processReading now s r []).state.switch_state = s.switch_state ∧
     (processReading now s r []).sent = [] ∧
     (processReading now s r []).rest = []) ∨
    (∃ uri sw n,
      (alookup s.switch_state uri = none ∨
        ∃ v, alookup s.switch_state uri = some v ∧ v ≠ sw) ∧
      (processReading now s r []).state.switch_state = ainsert s.switch_state uri sw ∧
      (processReading now s r []).sent = [⟨n, now, uri, [if sw then 1 else 0]⟩] ∧
      (processReading now s r []).err = none ∧
      (processReading now s r []).rest = []) := by
  obtain ⟨t, attrs⟩ := r
  cases h1 : alookup s.tx_to_uri t with
  | none =>
    have he : processReading now s ⟨t, attrs⟩ [] = ⟨s, [], [], [], none⟩ := by
      conv_lhs => unfold processReading
      simp only [h1]
    left
    rw [he]
    exact ⟨rfl, rfl, rfl⟩
  | some uri =>
    cases attrs with
    | nil =>
      have he : processReading now s ⟨t, ([] : List Attr)⟩ []
          = ⟨touchSolution s t, [], [], [], none⟩ := by
        conv_lhs => unfold processReading
        simp only [h1]
      left
      rw [he]
      exact ⟨touchSolution_switch_state s t, rfl, rfl⟩
    | cons a arest =>
      cases hd : a.data with
      | nil =>
        have he : processReading now s ⟨t, a :: arest⟩ []
            = ⟨touchSolution s t, [], [], [], some CppError.outOfRange⟩ := by
          conv_lhs => unfold processReading
          simp only [h1, hd]
        left
        rw [he]
        exact ⟨touchSolution_switch_state s t, rfl, rfl⟩
      | cons b bs =>
        rw [processReading_bound now s t uri a arest b bs [] h1 hd]
        have hts := touchSolution_switch_state s t
        cases hss : alookup (touchSolution s t).switch_state uri with
        | none =>
          right
          refine ⟨uri, (b != 0), (alookup s.tx_to_solution t).getD "", ?_, ?_, ?_, ?_, ?_⟩
          · left; rw [← hts]; exact hss
          · rw [publishStep_nil]; dsimp only; rw [hts]
          · rw [publishStep_nil]
          · rw [publishStep_nil]
          · rw [publishStep_nil]
        | some v =>
          by_cases hv : v = (b != 0 : Bool)
          · left
            dsimp only
            rw [if_pos hv]
            exact ⟨hts, rfl, rfl⟩
          · right
            dsimp only
            rw [if_neg hv]
            refine ⟨uri, (b != 0), (alookup s.tx_to_solution t).getD "", ?_, ?_, ?_, ?_, ?_⟩
            · right; exact ⟨v, by rw [← hts]; exact hss, hv⟩
            · rw [publishStep_nil]; dsimp only; rw [hts]
            · rw [publishStep_nil]
            · rw [publishStep_nil]
            · rw [publishStep_nil]

theorem pubValsFor_append (u : String) (l₁ l₂ : List Pub) :
    pubValsFor u (l₁ ++ l₂) = pubValsFor u l₁ ++ pubValsFor u l₂ := by
  simp [pubValsFor]

theorem pubValsFor_nil (u : String) : pubValsFor u [] = [] := rfl

theorem pubValsFor_single_eq (u : String) (p : Pub) (h : p.target = u) :
    pubValsFor u [p] = [decide (p.data = [1])] := by
  simp [pubValsFor, h]

theorem pubValsFor_single_ne (u : String) (p : Pub) (h : p.target ≠ u) :
    pubValsFor u [p] = [] := by
  simp [pubValsFor, h]

theorem bit_list_val (sw : Bool) :
    decide (([if sw then 1 else 0] : List Nat) = [1]) = sw := by
  cases sw <;> rfl

/-- Invariant behind claim C4: when every send succeeds, the boolean values
    delivered for an entity during a pass never repeat, with the entity's
    recorded state on entry constraining the first of them. -/
theorem runPass_vals_inv (now : Int) (recs : List ReadingRec) :
    ∀ (s : SolverState) (u : String),
      noAdjEqFrom (alookup s.switch_state u)
        (pubValsFor u (runReadingPass now s recs []).sent) = true := by
  induction recs with
  | nil => intro s u; rfl
  | cons r rest ih =>
    intro s u
    rcases processReading_nil_cases now s r with
      ⟨hstate, hsent, hrest⟩ | ⟨uri, sw, n, hprev, hstate, hsent, herr, hrest⟩
    · cases herr : (processReading now s r []).err with
      | some e =>
        rw [runReadingPass_err_cons now s r rest [] e herr]
        rw [hsent]
        rfl
      | none =>
        rw [runReadingPass_ok_cons now s r rest [] herr, hrest]
        dsimp only
        rw [hsent, List.nil_append, ← hstate]
        exact ih (processReading now s r []).state u
    · rw [runReadingPass_ok_cons now s r rest [] herr, hrest]
      dsimp only
      rw [hsent, pubValsFor_append]
      by_cases hu : uri = u
      · subst hu
        rw [pubValsFor_single_eq uri ⟨n, now, uri, [if sw then 1 else 0]⟩ rfl]
        dsimp only
        rw [bit_list_val]
        have htail : noAdjEqFrom (some sw)
            (pubValsFor uri (runReadingPass now (processReading now s r []).state rest []).sent)
            = true := by
          have hlook : alookup (processReading now s r []).state.switch_state uri = some sw := by
            rw [hstate, alookup_ainsert_self]
          have := ih (processReading now s r []).state uri
          rw [hlook] at this
          exact this
        rcases hprev with hnone | ⟨v, hv, hvne⟩
        · rw [hnone]
          simp only [List.cons_append, List.nil_append, noAdjEqFrom]
          exact htail
        · rw [hv]
          simp only [List.cons_append, List.nil_append, noAdjEqFrom]
          rw [Bool.and_eq_true]
          exact ⟨by simp [hvne], htail⟩
      · rw [pubValsFor_single_ne u ⟨n, now, uri, [if sw then 1 else 0]⟩ hu]
        rw [List.nil_append]
        have hlook : alookup (processReading now s r []).state.switch_state u
            = alookup s.switch_state u := by
          rw [hstate, alookup_ainsert_ne _ uri u sw hu]
        have := ih (processReading now s r []).state u
        rw [hlook] at this
        exact this

theorem publishStep_err_ne_oor (now : Int) (s : SolverState) (uri n : String)
    (sw : Bool) (outs : List SendOutcome) :
    (publishStep now s uri n sw outs).err ≠ some CppError.outOfRange := by
  unfold publishStep
  dsimp only
  cases (retryLoop ⟨n, now, uri, [if sw then 1 else 0]⟩ outs).2.2 <;> simp

/-- The out-of-range failure can only come from a reading record whose first
    attribute has empty data. -/
theorem processReading_outOfRange (now : Int) (s : SolverState) (r : ReadingRec)
    (outs : List SendOutcome)
    (h : (processReading now s r outs).err = some CppError.outOfRange) :
    ∃ a arest, r.attrs = a :: arest ∧ a.data = [] := by
  obtain ⟨t, attrs⟩ := r
  cases h1 : alookup s.tx_to_uri t with
  | none =>
    have he : processReading now s ⟨t, attrs⟩ outs = ⟨s, [], [], outs, none⟩ := by
      conv_lhs => unfold processReading
      simp only [h1]
    rw [he] at h
    exact absurd h (by simp)
  | some uri =>
    cases attrs with
    | nil =>
      have he : processReading now s ⟨t, ([] : List Attr)⟩ outs
          = ⟨touchSolution s t, [], [], outs, none⟩ := by
        conv_lhs => unfold processReading
        simp only [h1]
      rw [he] at h
      exact absurd h (by simp)
    | cons a arest =>
      cases hd : a.data with
      | nil => exact ⟨a, arest, rfl, hd⟩
      | cons b bs =>
        rw [processReading_bound now s t uri a arest b bs outs h1 hd] at h
        cases hss : alookup (touchSolution s t).switch_state uri with
        | none =>
          rw [hss] at h
          dsimp only at h
          exact absurd h (publishStep_err_ne_oor now (touchSolution s t) uri _ _ outs)
        | some v =>
          rw [hss] at h
          dsimp only at h
          by_cases hv : v = (b != 0 : Bool)
          · rw [if_pos hv] at h
            exact absurd h (by simp)
          · rw [if_neg hv] at h
            exact absurd h (publishStep_err_ne_oor now (touchSolution s t) uri _ _ outs)

/-- A pass whose reading records all carry nonempty first-attribute data
    never raises the out-of-range failure. -/
theorem runReadingPass_no_oor (now : Int) (recs : List ReadingRec) :
    ∀ (s : SolverState) (outs : List SendOutcome),
      (∀ r ∈ recs, ∀ (a : Attr) (arest : List Attr), r.attrs = a :: arest → a.data ≠ []) →
      (runReadingPass now s recs outs).err ≠ some CppError.outOfRange := by
  induction recs with
  | nil =>
    intro s outs hgood
    simp [runReadingPass]
  | cons r rest ih =>
    intro s outs hgood
    cases herr : (processReading now s r outs).err with
    | some e =>
      rw [runReadingPass_err_cons now s r rest outs e herr]
      dsimp only
      intro hcontra
      injection hcontra with he
      subst he
      obtain ⟨a, arest, hattrs, hdata⟩ := processReading_outOfRange now s r outs herr
      exact hgood r (List.mem_cons_self r rest) a arest hattrs hdata
    | none =>
      rw [runReadingPass_ok_cons now s r rest outs herr]
      dsimp only
      exact ih (processReading now s r outs).state (processReading now s r outs).rest
        (fun r' hr' => hgood r' (List.mem_cons_of_mem r hr'))

/-! ## Claim theorems -/

/-- Claim C1 (code_bug): the spec says a transition is emitted only after the
    configured threshold N of consecutive confirming observations, but the
    transition_threshold parsed at src/src lines 110-114 is never read by the
    processing loop.  With threshold 2, a bound transmitter whose recorded
    state is false, and a single reading with first byte 1, the code already
    delivers a publish on the first observation; indeed the processing result
    is independent of the threshold altogether. -/
theorem c1_threshold_never_used :
    (processBinaryData 2 0 ⟨[("t", "u")], [("t", "closed")], [("u", false)]⟩
        [⟨"t", [⟨"binary state", 0, 0, [1]⟩]⟩] []).sent
      = [⟨"closed", 0, "u", [1]⟩] ∧
    (∀ (th₁ th₂ : Nat) (now : Int) (s : SolverState) (recs : List ReadingRec)
        (outs : List SendOutcome),
        processBinaryData th₁ now s recs outs = processBinaryData th₂ now s recs outs) :=
  ⟨by decide, fun _ _ _ _ _ _ => rfl⟩

/-- Claim C2 (code_bug): the threshold variant (src/src lines 248-253) does
    erase both bindings on an expired identity record, after which a reading
    for that transmitter is skipped with no publish and no state change; but
    in the config-file variant (part_000 lines 283-296) the expired branch is
    an empty TODO FIXME block, the binding is installed anyway, and a
    subsequent reading for the supposedly expired transmitter still publishes. -/
theorem c2_expired_binding :
    (processIdentity ⟨[("1.42", "a.door.b")], [("1.42", "closed")], []⟩
        ⟨"a.door.b", [⟨"sensor.door", 10, 5,
          [1, 0, 0, 0, 0, 0, 0, 0, 0, 0, 0, 0, 0, 0, 0, 0, 42]⟩]⟩)
      = ⟨[], [], []⟩ ∧
    (processReading 0 ⟨[], [], []⟩
        ⟨"1.42", [⟨"binary state", 0, 0, [1]⟩]⟩ [])
      = ⟨⟨[], [], []⟩, [], [], [], none⟩ ∧
    (processIdentityCfg ⟨[], []⟩
        ⟨"a.door.b", [⟨"sensor.door", 10, 5,
          [1, 0, 0, 0, 0, 0, 0, 0, 0, 0, 0, 0, 0, 0, 0, 0, 42]⟩]⟩).tx_to_uri
      = [("1.42", "a.door.b")] ∧
    (processReadingCfg [("door", "closed")] 0 ⟨[("1.42", "a.door.b")], []⟩
        ⟨"1.42", [⟨"binary state", 0, 0, [1]⟩]⟩).2
      = [⟨"closed", 0, "a.door.b", [1]⟩] := by
  refine ⟨by decide, by decide, by decide, by decide⟩

/-- Claim C3 (code_bug): after a disconnection the reconnect block at src/src
    lines 176-180 does re-issue both stream requests, but binds them to new
    block-scoped locals that shadow the outer sr and binary_response handles,
    so the supervisor resumes draining the stale pre-disconnect handles (ids
    0 and 1 here) while the re-issued subscriptions get the fresh ids 2 and 3:
    a reading delivered on the re-issued reading stream (id 3) is never
    drained, and only readings still arriving on the dead old handle would be. -/
theorem c3_reconnect_shadowed :
    reconnectLoopBody ⟨false, 2, 0, 1⟩ = (⟨true, 4, 0, 1⟩, some (2, 3)) ∧
    drainedReadings ⟨true, 4, 0, 1⟩
        [(3, ⟨"t", [⟨"binary state", 0, 0, [1]⟩]⟩)] = [] ∧
    drainedReadings ⟨true, 4, 0, 1⟩
        [(1, ⟨"t", [⟨"binary state", 0, 0, [1]⟩]⟩)]
      = [⟨"t", [⟨"binary state", 0, 0, [1]⟩]⟩] := by
  refine ⟨by decide, by decide, by decide⟩

/-- Claim C8 counterexample: the claim says an expired record is never
    considered less-recent than a non-expired one under the comparator, but
    attr_comp applied to the expired record (creation 2, expiration 1) and
    the non-expired record (creation 3, expiration 0) returns true — the
    comparator is the less-than handed to max_element, so the expired record
    is deemed less-recent — and is not even countered by the reverse
    comparison, which returns false. -/
theorem c8_counterexample :
    attr_comp ⟨"sensor.door", 2, 1, []⟩ ⟨"sensor.door", 3, 0, []⟩ = true ∧
    attr_comp ⟨"sensor.door", 3, 0, []⟩ ⟨"sensor.door", 2, 1, []⟩ = false := by
  refine ⟨by decide, by decide⟩

/-- Claim C8 amended: under the comparator of src/src lines 168-169 an
    expired record (nonzero expiration date) is always considered less-recent
    than any record — attr_comp returns true whenever its first argument is
    expired; nevertheless max_element's left fold can still select an expired
    record as newest, e.g. an expired record with creation date 3 beats an
    unexpired first element with creation date 1. -/
theorem c8_expired_always_less (a b : Attr) (h : a.expiration_date ≠ 0) :
    attr_comp a b = true ∧
    maxElem attr_comp ⟨"sensor.door", 1, 0, []⟩ [⟨"sensor.door", 3, 7, []⟩]
      = ⟨"sensor.door", 3, 7, []⟩ := by
  constructor
  · simp [attr_comp, bne_iff_ne, h]
  · decide

/-- Witness for c8_expired_always_less at a concrete expired record. -/
theorem c8_expired_always_less_witness :
    attr_comp ⟨"sensor.door", 2, 1, []⟩ ⟨"sensor.water", 9, 0, []⟩ = true ∧
    maxElem attr_comp ⟨"sensor.door", 1, 0, []⟩ [⟨"sensor.door", 3, 7, []⟩]
      = ⟨"sensor.door", 3, 7, []⟩ :=
  c8_expired_always_less ⟨"sensor.door", 2, 1, []⟩ ⟨"sensor.water", 9, 0, []⟩ (by decide)

/-- Claim C5 counterexample: the claim says a configured class matches when
    it appears as a dot-delimited segment at a boundary of the URI, but the
    code of part_000 line 239 searches for "." + class + "." as a plain
    substring: class door against URI door.3 does not match (and produces no
    publish), while the spec's segment-or-boundary rule accepts it. -/
theorem c5_counterexample :
    classMatches "door" "door.3" = false ∧
    classMatchesSegSpec "door" "door.3" = true ∧
    object_to_solution_pubs [("door", "closed")] 0 "door.3" true = [] := by
  refine ⟨by decide, by decide, by decide⟩

/-- Claim C6 (confirmed): a send failing with the specific temporarily
    unavailable message is retried with the identical payload (the same
    AttrUpdate, timestamp included), unboundedly, until it succeeds — k
    transient failures before a success give exactly k+1 attempts all equal
    to the payload; a non-transient failure ends the retry at the attempt
    that raised it and is rethrown, the current pass is abandoned with the
    remaining records unprocessed, and the outer loop logs it and continues
    with the next pass. -/
theorem c6_publish_retry :
    (∀ (p : Pub) (k : Nat) (rest : List SendOutcome),
        retryLoop p (List.replicate k (SendOutcome.err transientMsg)
            ++ SendOutcome.ok :: rest)
          = (List.replicate (k + 1) p, rest, none)) ∧
    (∀ (p : Pub) (k : Nat) (m : String) (rest : List SendOutcome),
        m ≠ transientMsg →
        retryLoop p (List.replicate k (SendOutcome.err transientMsg)
            ++ SendOutcome.err m :: rest)
          = (List.replicate (k + 1) p, rest, some m)) ∧
    (∀ (now : Int) (s : SolverState) (r : ReadingRec) (rest : List ReadingRec)
        (outs : List SendOutcome) (e : CppError),
        (processReading now s r outs).err = some e →
        runReadingPass now s (r :: rest) outs
          = ⟨(processReading now s r outs).state,
             (processReading now s r outs).sent, some e⟩) ∧
    (∀ (now : Int) (s : SolverState) (recs : List ReadingRec)
        (outs : List SendOutcome) (more : List (List ReadingRec × List SendOutcome))
        (m : String),
        (runReadingPass now s recs outs).err = some (CppError.runtimeError m) →
        runLoop now s ((recs, outs) :: more)
          = ((runLoop now (runReadingPass now s recs outs).state more).1,
             (runReadingPass now s recs outs).sent
               ++ (runLoop now (runReadingPass now s recs outs).state more).2)) :=
  ⟨fun p k rest => retryLoop_transient_ok p rest k,
   fun p k m rest hm => retryLoop_transient_fatal p m rest hm k,
   fun now s r rest outs e h => runReadingPass_err_cons now s r rest outs e h,
   fun now s recs outs more m h => runLoop_continues now s recs outs more m h⟩

/-- Witness for c6_publish_retry: two transient failures then a fatal one
    give three identical attempts and rethrow boom; a pass whose first record
    fails fatally stops there; the outer loop continues past the logged pass. -/
theorem c6_publish_retry_witness :
    retryLoop ⟨"closed", 0, "u", [1]⟩
        (List.replicate 2 (SendOutcome.err transientMsg)
          ++ SendOutcome.err "boom" :: [])
      = (List.replicate 3 ⟨"closed", 0, "u", [1]⟩, [], some "boom") ∧
    runReadingPass 0 ⟨[("t", "u")], [("t", "closed")], []⟩
        (⟨"t", [⟨"binary state", 0, 0, [1]⟩]⟩ :: [⟨"x", []⟩])
        [SendOutcome.err "boom"]
      = ⟨(processReading 0 ⟨[("t", "u")], [("t", "closed")], []⟩
            ⟨"t", [⟨"binary state", 0, 0, [1]⟩]⟩ [SendOutcome.err "boom"]).state,
         (processReading 0 ⟨[("t", "u")], [("t", "closed")], []⟩
            ⟨"t", [⟨"binary state", 0, 0, [1]⟩]⟩ [SendOutcome.err "boom"]).sent,
         some (CppError.runtimeError "boom")⟩ ∧
    runLoop 0 ⟨[("t", "u")], [("t", "closed")], []⟩
        (([⟨"t", [⟨"binary state", 0, 0, [1]⟩]⟩], [SendOutcome.err "boom"]) :: [])
      = ((runLoop 0 (runReadingPass 0 ⟨[("t", "u")], [("t", "closed")], []⟩
              [⟨"t", [⟨"binary state", 0, 0, [1]⟩]⟩] [SendOutcome.err "boom"]).state []).1,
         (runReadingPass 0 ⟨[("t", "u")], [("t", "closed")], []⟩
              [⟨"t", [⟨"binary state", 0, 0, [1]⟩]⟩] [SendOutcome.err "boom"]).sent
           ++ (runLoop 0 (runReadingPass 0 ⟨[("t", "u")], [("t", "closed")], []⟩
              [⟨"t", [⟨"binary state", 0, 0, [1]⟩]⟩] [SendOutcome.err "boom"]).state []).2) :=
  ⟨c6_publish_retry.2.1 ⟨"closed", 0, "u", [1]⟩ 2 "boom" [] (by decide),
   c6_publish_retry.2.2.1 0 ⟨[("t", "u")], [("t", "closed")], []⟩
     ⟨"t", [⟨"binary state", 0, 0, [1]⟩]⟩ [⟨"x", []⟩] [SendOutcome.err "boom"]
     (CppError.runtimeError "boom") (by decide),
   c6_publish_retry.2.2.2 0 ⟨[("t", "u")], [("t", "closed")], []⟩
     [⟨"t", [⟨"binary state", 0, 0, [1]⟩]⟩] [SendOutcome.err "boom"] [] "boom"
     (by decide)⟩

/-- Claim C9 (confirmed): the binding-table key built at src/src lines
    246-247 uses only the physical-layer byte and the lower 64-bit half of
    the 128-bit transmitter id, so any two transmitters agreeing on phy and
    id.lower share a key; concretely, the 17-byte identity payloads with
    upper halves 5 and 9 decode to distinct transmitters with the same key
    1.42, and processing the second identity record overwrites the binding
    installed by the first. -/
theorem c9_key_ignores_upper :
    (∀ t₁ t₂ : Transmitter, t₁.phy = t₂.phy → t₁.idLower = t₂.idLower →
        mkTxKey t₁ = mkTxKey t₂) ∧
    readTransmitter [1, 0, 0, 0, 0, 0, 0, 0, 5, 0, 0, 0, 0, 0, 0, 0, 42]
      ≠ readTransmitter [1, 0, 0, 0, 0, 0, 0, 0, 9, 0, 0, 0, 0, 0, 0, 0, 42] ∧
    mkTxKey (readTransmitter [1, 0, 0, 0, 0, 0, 0, 0, 5, 0, 0, 0, 0, 0, 0, 0, 42])
      = mkTxKey (readTransmitter [1, 0, 0, 0, 0, 0, 0, 0, 9, 0, 0, 0, 0, 0, 0, 0, 42]) ∧
    (processIdentity
        (processIdentity ⟨[], [], []⟩
          ⟨"room.1", [⟨"sensor.door", 0, 0,
            [1, 0, 0, 0, 0, 0, 0, 0, 5, 0, 0, 0, 0, 0, 0, 0, 42]⟩]⟩)
        ⟨"room.2", [⟨"sensor.door", 0, 0,
          [1, 0, 0, 0, 0, 0, 0, 0, 9, 0, 0, 0, 0, 0, 0, 0, 42]⟩]⟩).tx_to_uri
      = [("1.42", "room.2")] := by
  refine ⟨?_, by decide, by decide, by decide⟩
  intro t₁ t₂ h1 h2
  unfold mkTxKey
  rw [h1, h2]

/-- Witness for c9_key_ignores_upper: the transmitters (phy 1, upper 5,
    lower 42) and (phy 1, upper 9, lower 42) map to the same key. -/
theorem c9_key_ignores_upper_witness :
    mkTxKey ⟨1, 5, 42⟩ = mkTxKey ⟨1, 9, 42⟩ :=
  c9_key_ignores_upper.1 ⟨1, 5, 42⟩ ⟨1, 9, 42⟩ rfl rfl

/-- Claim C10 (confirmed): for a reading of a bound transmitter, the boolean
    state recorded in switch_state is exactly the first byte of the first
    attribute's data compared against zero, every attempted outbound payload
    is the normalized single byte 1 or 0, and the processing result depends
    on nothing else of the attributes: readings whose first bytes are 2 and 1
    produce identical results, whatever the rest of their data or attributes. -/
theorem c10_first_byte_normalized :
    (∀ (now : Int) (s : SolverState) (t u : String) (a : Attr) (rest : List Attr)
        (b : Nat) (bs : List Nat) (outs : List SendOutcome),
        alookup s.tx_to_uri t = some u → a.data = b :: bs →
        alookup (processReading now s ⟨t, a :: rest⟩ outs).state.switch_state u
            = some (b != 0) ∧
        (∀ p ∈ (processReading now s ⟨t, a :: rest⟩ outs).attempts,
            p.data = [if (b != 0 : Bool) then 1 else 0])) ∧
    (∀ (now : Int) (s : SolverState) (t : String) (a₁ a₂ : Attr)
        (r₁ r₂ : List Attr) (d₁ d₂ : List Nat) (outs : List SendOutcome),
        a₁.data = 2 :: d₁ → a₂.data = 1 :: d₂ →
        processReading now s ⟨t, a₁ :: r₁⟩ outs
          = processReading now s ⟨t, a₂ :: r₂⟩ outs) := by
  constructor
  · intro now s t u a rest b bs outs h1 h2
    rw [processReading_bound now s t u a rest b bs outs h1 h2]
    cases hss : alookup (touchSolution s t).switch_state u with
    | none =>
      dsimp only
      constructor
      · rw [publishStep_switch_state, alookup_ainsert_self]
      · intro p hp
        rw [publishStep_attempts] at hp
        rw [retryLoop_mem _ outs p hp]
    | some v =>
      dsimp only
      by_cases hv : v = (b != 0 : Bool)
      · subst hv
        simp only [if_pos rfl]
        exact ⟨hss, by intro p hp; simp at hp⟩
      · simp only [if_neg hv]
        constructor
        · rw [publishStep_switch_state, alookup_ainsert_self]
        · intro p hp
          rw [publishStep_attempts] at hp
          rw [retryLoop_mem _ outs p hp]
  · intro now s t a₁ a₂ r₁ r₂ d₁ d₂ outs h1 h2
    cases hb : alookup s.tx_to_uri t with
    | none =>
      conv_lhs => unfold processReading
      conv_rhs => unfold processReading
      simp only [hb]
    | some u =>
      rw [processReading_bound now s t u a₁ r₁ 2 d₁ outs hb h1,
          processReading_bound now s t u a₂ r₂ 1 d₂ outs hb h2]
      have e2 : ((2 : Nat) != 0) = true := rfl
      have e1 : ((1 : Nat) != 0) = true := rfl
      rw [e2, e1]

/-- Witness for c10_first_byte_normalized: a raw byte 2 for a bound
    transmitter records state true, attempts only the payload byte 1, and is
    processed identically to a raw byte 1 with a different tail. -/
theorem c10_first_byte_normalized_witness :
    (alookup (processReading 0 ⟨[("t", "u")], [("t", "closed")], []⟩
        ⟨"t", [⟨"binary state", 0, 0, [2, 7]⟩]⟩ []).state.switch_state "u"
      = some ((2 : Nat) != 0) ∧
     (∀ p ∈ (processReading 0 ⟨[("t", "u")], [("t", "closed")], []⟩
        ⟨"t", [⟨"binary state", 0, 0, [2, 7]⟩]⟩ []).attempts,
        p.data = [if ((2 : Nat) != 0 : Bool) then 1 else 0])) ∧
    processReading 0 ⟨[("t", "u")], [("t", "closed")], []⟩
        ⟨"t", [⟨"binary state", 0, 0, [2, 7]⟩]⟩ []
      = processReading 0 ⟨[("t", "u")], [("t", "closed")], []⟩
        ⟨"t", [⟨"binary state", 0, 0, [1]⟩]⟩ [] :=
  ⟨c10_first_byte_normalized.1 0 ⟨[("t", "u")], [("t", "closed")], []⟩ "t" "u"
     ⟨"binary state", 0, 0, [2, 7]⟩ [] 2 [7] [] (by decide) rfl,
   c10_first_byte_normalized.2 0 ⟨[("t", "u")], [("t", "closed")], []⟩ "t"
     ⟨"binary state", 0, 0, [2, 7]⟩ ⟨"binary state", 0, 0, [1]⟩ [] [] [7] [] []
     rfl rfl⟩

/-- Claim C4 counterexample: the claim's no-redundant-publish invariant is
    unconditional, but switch_state is updated before the send (src/src line
    198 before lines 204-221), so a non-transient send failure records a
    transition that is never delivered: over two passes — publish true
    delivered, publish false fails fatally, publish true delivered — the
    values actually published for entity u are [true, true], two equal
    consecutive published values. -/
theorem c4_counterexample :
    pubValsFor "u" (runLoop 0 ⟨[("t", "u")], [("t", "closed")], []⟩
        [([⟨"t", [⟨"binary state", 0, 0, [1]⟩]⟩, ⟨"t", [⟨"binary state", 0, 0, [0]⟩]⟩],
          [SendOutcome.ok, SendOutcome.err "boom"]),
         ([⟨"t", [⟨"binary state", 0, 0, [1]⟩]⟩], [SendOutcome.ok])]).2
      = [true, true] ∧
    noAdjEq (pubValsFor "u" (runLoop 0 ⟨[("t", "u")], [("t", "closed")], []⟩
        [([⟨"t", [⟨"binary state", 0, 0, [1]⟩]⟩, ⟨"t", [⟨"binary state", 0, 0, [0]⟩]⟩],
          [SendOutcome.ok, SendOutcome.err "boom"]),
         ([⟨"t", [⟨"binary state", 0, 0, [1]⟩]⟩], [SendOutcome.ok])]).2) = false := by
  refine ⟨by decide, by decide⟩

/-- Claim C4 amended: starting from an empty switch_state, when every send
    succeeds the boolean values published for any entity never repeat
    consecutively (no redundant publishes; the first publish is
    unconstrained); and processing a reading equal to the entity's recorded
    state delivers nothing, leaves switch_state unchanged, and raises no
    error.  (Unconditionally, a non-transient send failure can record a
    transition without publishing it, after which the next published value
    may equal the previously published one — see the counterexample.) -/
theorem c4_no_redundant_publishes :
    (∀ (now : Int) (txu txs : List (String × String)) (recs : List ReadingRec)
        (u : String),
        noAdjEq (pubValsFor u (runReadingPass now ⟨txu, txs, []⟩ recs []).sent) = true) ∧
    (∀ (now : Int) (s : SolverState) (t u : String) (a : Attr) (rest : List Attr)
        (b : Nat) (bs : List Nat) (outs : List SendOutcome) (v : Bool),
        alookup s.tx_to_uri t = some u → a.data = b :: bs →
        alookup s.switch_state u = some v → v = (b != 0) →
        (processReading now s ⟨t, a :: rest⟩ outs).sent = [] ∧
        (processReading now s ⟨t, a :: rest⟩ outs).state.switch_state = s.switch_state ∧
        (processReading now s ⟨t, a :: rest⟩ outs).err = none) := by
  constructor
  · intro now txu txs recs u
    exact runPass_vals_inv now recs ⟨txu, txs, []⟩ u
  · intro now s t u a rest b bs outs v h1 h2 h3 h4
    rw [processReading_bound now s t u a rest b bs outs h1 h2]
    have hss : alookup (touchSolution s t).switch_state u = some v := by
      rw [touchSolution_switch_state]
      exact h3
    rw [hss]
    dsimp only
    rw [if_pos h4]
    exact ⟨rfl, touchSolution_switch_state s t, rfl⟩

/-- Witness for c4_no_redundant_publishes: a two-reading pass from an empty
    switch_state publishes alternating values, and a reading equal to the
    recorded state is a no-op. -/
theorem c4_no_redundant_publishes_witness :
    noAdjEq (pubValsFor "u" (runReadingPass 0 ⟨[("t", "u")], [("t", "closed")], []⟩
        [⟨"t", [⟨"binary state", 0, 0, [1]⟩]⟩, ⟨"t", [⟨"binary state", 0, 0, [0]⟩]⟩]
        []).sent) = true ∧
    ((processReading 0 ⟨[("t", "u")], [("t", "closed")], [("u", true)]⟩
        ⟨"t", [⟨"binary state", 0, 0, [1]⟩]⟩ []).sent = [] ∧
     (processReading 0 ⟨[("t", "u")], [("t", "closed")], [("u", true)]⟩
        ⟨"t", [⟨"binary state", 0, 0, [1]⟩]⟩ []).state.switch_state = [("u", true)] ∧
     (processReading 0 ⟨[("t", "u")], [("t", "closed")], [("u", true)]⟩
        ⟨"t", [⟨"binary state", 0, 0, [1]⟩]⟩ []).err = none) :=
  ⟨c4_no_redundant_publishes.1 0 [("t", "u")] [("t", "closed")]
     [⟨"t", [⟨"binary state", 0, 0, [1]⟩]⟩, ⟨"t", [⟨"binary state", 0, 0, [0]⟩]⟩] "u",
   c4_no_redundant_publishes.2 0 ⟨[("t", "u")], [("t", "closed")], [("u", true)]⟩
     "t" "u" ⟨"binary state", 0, 0, [1]⟩ [] 1 [] [] true
     (by decide) rfl (by decide) (by decide)⟩

/-- Claim C5 amended: in the config-file variant a configured class produces
    a publish for a confirmed transition on a URI exactly when "." + class +
    "." occurs as a substring of the URI (the class name surrounded by dots
    on both sides; a class at the start or end of the URI without both
    surrounding dots does not match), and every matching configured class
    yields its own independent publish of its configured output attribute —
    the number of publishes equals the number of matching classes. -/
theorem c5_substring_class_matching :
    (∀ (o2s : List (String × String)) (now : Int) (uri : String) (sw : Bool)
        (p : Pub),
        p ∈ object_to_solution_pubs o2s now uri sw ↔
          ∃ c soln, (c, soln) ∈ o2s ∧ classMatches c uri = true ∧
            p = ⟨soln, now, uri, [if sw then 1 else 0]⟩) ∧
    (∀ (o2s : List (String × String)) (now : Int) (uri : String) (sw : Bool),
        (object_to_solution_pubs o2s now uri sw).length
          = (o2s.filter (fun q => classMatches q.1 uri)).length) := by
  constructor
  · intro o2s now uri sw p
    unfold object_to_solution_pubs
    rw [List.mem_filterMap]
    constructor
    · rintro ⟨⟨c, soln⟩, hmem, hf⟩
      by_cases hc : classMatches c uri = true
      · rw [if_pos hc] at hf
        injection hf with hf
        exact ⟨c, soln, hmem, hc, hf.symm⟩
      · rw [if_neg hc] at hf
        exact absurd hf (by simp)
    · rintro ⟨c, soln, hmem, hc, rfl⟩
      exact ⟨(c, soln), hmem, by rw [if_pos hc]⟩
  · intro o2s now uri sw
    induction o2s with
    | nil => rfl
    | cons q t ih =>
      by_cases hc : classMatches q.1 uri = true
      · simp only [object_to_solution_pubs, List.filterMap_cons, List.filter_cons,
          if_pos hc, hc]
        simp only [object_to_solution_pubs] at ih
        simp [ih]
      · simp only [object_to_solution_pubs, List.filterMap_cons, List.filter_cons,
          if_neg hc, hc]
        simp only [object_to_solution_pubs] at ih
        simp [Bool.not_eq_true] at hc
        simp [hc, ih]

/-- Claim C7 counterexample: a pass containing a reading for a bound
    transmitter whose first attribute has empty data raises std::out_of_range
    from data.at(0) (src/src line 195); the handler at lines 268-270 catches
    only std::runtime_error, so this failure is not caught, gets no log line,
    and terminates the program — the claim requires every failure in a pass
    to be caught, logged and non-fatal. -/
theorem c7_counterexample :
    (runReadingPass 0 ⟨[("t", "u")], [("t", "closed")], []⟩
        [⟨"t", [⟨"binary state", 0, 0, []⟩]⟩] []).err = some CppError.outOfRange ∧
    passOutcome (runReadingPass 0 ⟨[("t", "u")], [("t", "closed")], []⟩
        [⟨"t", [⟨"binary state", 0, 0, []⟩]⟩] []).err = PassOutcome.terminated := by
  refine ⟨by decide, by decide⟩

/-- Claim C7 amended: every failure surfacing from a pass as a
    std::runtime_error is caught by the pass-level handler and logged and the
    outer loop continues; the handler catches only std::runtime_error, and
    the out-of-range failure raised by a reading record whose first
    attribute's data is empty escapes it and terminates the program; passes
    whose reading records all carry nonempty first-attribute data never raise
    that out-of-range failure. -/
theorem c7_runtime_errors_logged :
    (∀ (now : Int) (s : SolverState) (recs : List ReadingRec)
        (outs : List SendOutcome) (m : String),
        (runReadingPass now s recs outs).err = some (CppError.runtimeError m) →
        passOutcome (runReadingPass now s recs outs).err = PassOutcome.caughtLogged m) ∧
    (∀ (now : Int) (s : SolverState) (recs : List ReadingRec)
        (outs : List SendOutcome),
        (∀ r ∈ recs, ∀ (a : Attr) (arest : List Attr), r.attrs = a :: arest → a.data ≠ []) →
        (runReadingPass now s recs outs).err ≠ some CppError.outOfRange) ∧
    passOutcome (runReadingPass 0 ⟨[("t2", "u2")], [("t2", "closed")], []⟩
        [⟨"t2", [⟨"binary state", 0, 0, []⟩]⟩] []).err = PassOutcome.terminated := by
  refine ⟨?_, ?_, by decide⟩
  · intro now s recs outs m h
    rw [h]
    rfl
  · intro now s recs outs hgood
    exact runReadingPass_no_oor now recs s outs hgood

/-- Witness for c7_runtime_errors_logged: a fatal send failure in a pass is
    caught and logged as boom, and a pass whose single record carries the
    data byte 1 cannot raise out-of-range. -/
theorem c7_runtime_errors_logged_witness :
    passOutcome (runReadingPass 0 ⟨[("t", "u")], [("t", "closed")], []⟩
        [⟨"t", [⟨"binary state", 0, 0, [1]⟩]⟩] [SendOutcome.err "boom"]).err
      = PassOutcome.caughtLogged "boom" ∧
    (runReadingPass 0 ⟨[("t", "u")], [("t", "closed")], []⟩
        [⟨"t", [⟨"binary state", 0, 0, [1]⟩]⟩] []).err ≠ some CppError.outOfRange :=
  ⟨c7_runtime_errors_logged.1 0 ⟨[("t", "u")], [("t", "closed")], []⟩
     [⟨"t", [⟨"binary state", 0, 0, [1]⟩]⟩] [SendOutcome.err "boom"] "boom" (by decide),
   c7_runtime_errors_logged.2.1 0 ⟨[("t", "u")], [("t", "closed")], []⟩
     [⟨"t", [⟨"binary state", 0, 0, [1]⟩]⟩] []
     (by
       intro r hr a arest ha
       rw [List.mem_singleton] at hr
       subst hr
       injection ha with ha1 ha2
       rw [← ha1]
       decide)⟩

end BinaryStateSolver
